import Mathlib

set_option autoImplicit false

/-!
Verification development for the iPhone-G-Sensor fusion/estimation core.

The numeric state of the Python code is modelled over the rationals.  The
transcendental library functions that the code calls (math.cos, math.sin,
math.sqrt and the constant math.pi) are abstracted as an explicit record of
opaque-to-the-model functions, `TrigOps`; theorems that depend on the value of
pi take rational bounds on it as hypotheses (the true value of math.pi
satisfies them).  Python `None` is modelled with `Option`; Python truthiness
of an optional float (`if self.memory_mode_start_time:`) is modelled by
`truthyQ`, which is false for `none` and for `some 0`.
-/

/-- Abstraction of the math-library operations used by the source code. -/
structure TrigOps where
  cos : ℚ → ℚ
  sin : ℚ → ℚ
  sqrt : ℚ → ℚ
  pi : ℚ

/-- Python truthiness of an optional float: None and 0.0 are falsy. -/
def truthyQ : Option ℚ → Bool
  | none => false
  | some v => v != 0

/-- math.radians: degrees to radians, x * pi / 180. -/
def radiansT (T : TrigOps) (x : ℚ) : ℚ := x * T.pi / 180

/-- math.degrees: radians to degrees, x * 180 / pi. -/
def degreesT (T : TrigOps) (x : ℚ) : ℚ := x * 180 / T.pi

/-- Yaw-delta wrap used in both update_ins variants of g_sensor_app.py:
if delta > pi subtract 2*pi, elif delta < -pi add 2*pi, else unchanged. -/
def wrapDelta (T : TrigOps) (d : ℚ) : ℚ :=
  if d > T.pi then d - 2 * T.pi
  else if d < -T.pi then d + 2 * T.pi
  else d

/-- Earth radius constant shared by both fusion variants (meters). -/
def EARTH_RADIUS : ℚ := 6378137

namespace Alt

/-- State of AltitudeFusion (log_viewer.py): gps_altitude, baro_reference and
fused_altitude start as None; vertical_velocity starts at 0. -/
structure AltState where
  gps_altitude : Option ℚ
  baro_reference : Option ℚ
  fused_altitude : Option ℚ
  vertical_velocity : ℚ
deriving DecidableEq

/-- AltitudeFusion.__init__ / AltitudeFusion.reset. -/
def init : AltState := ⟨none, none, none, 0⟩

/-- AltitudeFusion.update (log_viewer.py lines 760-803), returning the updated
state together with the returned value.  Before first anchoring (gps_altitude
is None) a call anchors and returns the altitude only when gps_alt is present
and nonzero, otherwise returns None without touching the state.  After
anchoring, a barometric sample drives fused_altitude from the anchors, else a
present nonzero gps_alt replaces it; then the vertical-velocity accumulator is
advanced and, when the vertical accuracy is good, the anchors are nudged. -/
def update (s : AltState) (gps_alt gps_v_acc baro_relative accel_z : Option ℚ)
    (dt : ℚ) : AltState × Option ℚ :=
  match s.gps_altitude with
  | none =>
    match gps_alt with
    | some g =>
      if g ≠ 0 then
        (⟨some g, some (baro_relative.getD 0), some g, s.vertical_velocity⟩, some g)
      else (s, none)
    | none => (s, none)
  | some ga =>
    let s1 : AltState :=
      match baro_relative, s.baro_reference with
      | some b, some br => { s with fused_altitude := some (ga + (b - br)) }
      | _, _ =>
        match gps_alt with
        | some g => if g ≠ 0 then { s with fused_altitude := some g } else s
        | none => s
    let s2 : AltState :=
      match accel_z with
      | some az =>
        if dt > 0 then
          { s1 with vertical_velocity := (s1.vertical_velocity + az * 9.81 * dt) * 0.95 }
        else s1
      | none => s1
    let s3 : AltState :=
      match gps_alt, gps_v_acc with
      | some g, some va =>
        if va > 0 ∧ va < 15 then
          { s2 with gps_altitude := some ((1 - 0.3) * ga + 0.3 * g),
                    baro_reference :=
                      match baro_relative with
                      | some b => some b
                      | none => s2.baro_reference }
        else s2
      | _, _ => s2
    (s3, s3.fused_altitude)

end Alt

namespace App

/-- Mutable state of GPSINSFusion in g_sensor_app.py (lines 552-575).  In the
source, current_lat and current_lon are None until the first initialization
and every read of them is guarded by is_initialized, so they are modelled as
rationals whose value before initialization is irrelevant (reset puts 0). -/
structure State where
  current_lat : ℚ
  current_lon : ℚ
  velocity_north : ℚ
  velocity_east : ℚ
  position_uncertainty : ℚ
  velocity_uncertainty : ℚ
  track : List (ℚ × ℚ)
  is_initialized : Bool
  last_yaw : Option ℚ
  current_heading : ℚ
  memory_velocity_north : ℚ
  memory_velocity_east : ℚ
  memory_heading : ℚ
  memory_speed : ℚ
  is_memory_mode : Bool
  memory_mode_start_time : Option ℚ
  last_good_gps_time : Option ℚ
deriving DecidableEq

/-- GPSINSFusion.reset (g_sensor_app.py). -/
def reset : State :=
  ⟨0, 0, 0, 0, 10, 1, [], false, none, 0, 0, 0, 0, 0, false, none, none⟩

/-- GPSINSFusion.initialize: set the position, restart the track. -/
def init_pos (s : State) (lat lon : ℚ) : State :=
  { s with current_lat := lat, current_lon := lon,
           track := [(lat, lon)], is_initialized := true }

/-- GPSINSFusion.update_gps of g_sensor_app.py (lines 584-638).  The ambient
clock value time.time() is passed in as the parameter now. -/
def update_gps (T : TrigOps) (s : State)
    (lat lon speed course accuracy now : ℚ) : State :=
  if s.is_initialized = false then init_pos s lat lon
  else
    let s1 :=
      if 0 ≤ accuracy ∧ accuracy < 15 then
        let sA :=
          if 0 ≤ course ∧ speed > 0.3 then
            let course_rad := radiansT T course
            { s with memory_velocity_north := speed * T.cos course_rad,
                     memory_velocity_east := speed * T.sin course_rad,
                     memory_heading := course_rad,
                     memory_speed := speed }
          else s
        let sB := { sA with last_good_gps_time := some now }
        if sB.is_memory_mode = true then
          { sB with is_memory_mode := false, memory_mode_start_time := none }
        else sB
      else s
    if accuracy < 0 ∨ 30 ≤ accuracy then
      if s1.is_memory_mode = false ∧ s1.memory_speed > 0.3 then
        { s1 with is_memory_mode := true, memory_mode_start_time := some now }
      else s1
    else
      let gps_weight := 1 / (1 + accuracy / 10)
      let s2 := { s1 with
        current_lat := (1 - gps_weight) * s1.current_lat + gps_weight * lat,
        current_lon := (1 - gps_weight) * s1.current_lon + gps_weight * lon }
      let s3 :=
        if 0 ≤ course ∧ speed > 0.5 then
          let course_rad := radiansT T course
          let vel_weight := gps_weight * 0.5
          { s2 with
            velocity_north := (1 - vel_weight) * s2.velocity_north
              + vel_weight * (speed * T.cos course_rad),
            velocity_east := (1 - vel_weight) * s2.velocity_east
              + vel_weight * (speed * T.sin course_rad),
            current_heading := course_rad }
        else s2
      let s4 := { s3 with
        position_uncertainty := accuracy * 0.5 + s3.position_uncertainty * 0.5,
        velocity_uncertainty := s3.velocity_uncertainty * 0.9 }
      { s4 with track := s4.track ++ [(s4.current_lat, s4.current_lon)] }

/-- Mode tag of the dictionary returned by update_ins of g_sensor_app.py. -/
inductive InsMode
  | memory_track
  | ins
deriving DecidableEq

/-- Dictionary returned by update_ins of g_sensor_app.py (lines 773-780). -/
structure InsOut where
  lat : ℚ
  lon : ℚ
  speed : ℚ
  heading : ℚ
  mode : InsMode
  memory_elapsed : ℚ
deriving DecidableEq

/-- Memory-track branch of update_ins (g_sensor_app.py lines 655-690),
returning the advanced state and the local speed variable. -/
def memoryStep (T : TrigOps) (s : State) (attitude : Option (ℚ × ℚ × ℚ))
    (dt : ℚ) : State × ℚ :=
  let s1 :=
    match attitude with
    | some (_r, _p, yaw) =>
      let sA :=
        match s.last_yaw with
        | some ly =>
          { s with memory_heading := s.memory_heading + wrapDelta T (yaw - ly) }
        | none => s
      { sA with last_yaw := some yaw }
    | none => s
  let s2 := { s1 with memory_velocity_north := s1.memory_velocity_north * 0.98,
                      memory_velocity_east := s1.memory_velocity_east * 0.98,
                      memory_speed := s1.memory_speed * 0.98 }
  let vel_north := s2.memory_speed * T.cos s2.memory_heading
  let vel_east := s2.memory_speed * T.sin s2.memory_heading
  let delta_lat := vel_north * dt / EARTH_RADIUS
  let delta_lon := vel_east * dt / (EARTH_RADIUS * T.cos (radiansT T s2.current_lat))
  let s3 := { s2 with current_lat := s2.current_lat + degreesT T delta_lat,
                      current_lon := s2.current_lon + degreesT T delta_lon }
  (s3, s2.memory_speed)

/-- Normal INS branch of update_ins (g_sensor_app.py lines 692-764),
returning the advanced state and the local speed variable (which the source
computes before the clamp and returns unclamped). -/
def insStep (T : TrigOps) (s : State) (user_accel attitude : Option (ℚ × ℚ × ℚ))
    (dt : ℚ) : State × ℚ :=
  let s1 :=
    match attitude with
    | some (_r, _p, yaw) =>
      let sA :=
        match s.last_yaw with
        | some ly =>
          { s with current_heading := s.current_heading + wrapDelta T (yaw - ly) }
        | none => s
      { sA with last_yaw := some yaw }
    | none => s
  let s2 :=
    match user_accel, attitude with
    | some (ax, ay, az), some (roll, pitch, yaw) =>
      let cos_pitch := T.cos pitch
      let sin_pitch := T.sin pitch
      let cos_roll := T.cos roll
      let ay_corrected := ay * cos_pitch - az * sin_pitch
      let ax_corrected := ax * cos_roll
      let heading := 3 * T.pi / 2 - yaw
      let accel_north := ay_corrected * T.cos heading - ax_corrected * T.sin heading
      let accel_east := ay_corrected * T.sin heading + ax_corrected * T.cos heading
      let accel_mag := T.sqrt (ax ^ 2 + ay ^ 2 + az ^ 2)
      if accel_mag < 0.08 then
        { s1 with velocity_north := s1.velocity_north * 0.8,
                  velocity_east := s1.velocity_east * 0.8 }
      else if |ax| > 0.05 ∨ |ay| > 0.05 then
        { s1 with velocity_north := s1.velocity_north + accel_north * 9.81 * dt,
                  velocity_east := s1.velocity_east + accel_east * 9.81 * dt }
      else s1
    | _, _ => s1
  let s3 := { s2 with velocity_north := s2.velocity_north * 0.99,
                      velocity_east := s2.velocity_east * 0.99 }
  let speed := T.sqrt (s3.velocity_north ^ 2 + s3.velocity_east ^ 2)
  let s4 :=
    if speed > 10 then
      let scale := 10 / speed
      { s3 with velocity_north := s3.velocity_north * scale,
                velocity_east := s3.velocity_east * scale }
    else s3
  let delta_lat := s4.velocity_north * dt / EARTH_RADIUS
  let delta_lon := s4.velocity_east * dt / (EARTH_RADIUS * T.cos (radiansT T s4.current_lat))
  let s5 := { s4 with current_lat := s4.current_lat + degreesT T delta_lat,
                      current_lon := s4.current_lon + degreesT T delta_lon }
  (s5, speed)

/-- GPSINSFusion.update_ins of g_sensor_app.py (lines 640-780): chooses the
memory-track or normal INS branch, then grows both uncertainties by dt,
appends a track point and returns the result dictionary.  The ambient clock
value time.time() is passed in as now; note that the source checks the
memory start timestamp for Python truthiness, so a stored value of 0.0
disables the memory branch. -/
def update_ins (T : TrigOps) (s : State) (user_accel attitude : Option (ℚ × ℚ × ℚ))
    (dt now : ℚ) : State × Option InsOut :=
  if s.is_initialized = false then (s, none)
  else
    let memory_elapsed := now - s.memory_mode_start_time.getD 0
    if s.is_memory_mode = true ∧ truthyQ s.memory_mode_start_time = true ∧
        memory_elapsed < 60 ∧ s.memory_speed > 0.3 then
      let p := memoryStep T s attitude dt
      let sF := { p.1 with
        position_uncertainty := p.1.position_uncertainty + 0.1 * dt,
        velocity_uncertainty := p.1.velocity_uncertainty + 0.05 * dt,
        track := p.1.track ++ [(p.1.current_lat, p.1.current_lon)] }
      (sF, some ⟨sF.current_lat, sF.current_lon, p.2,
                 degreesT T p.1.memory_heading, InsMode.memory_track, memory_elapsed⟩)
    else
      let p := insStep T s user_accel attitude dt
      let sF := { p.1 with
        position_uncertainty := p.1.position_uncertainty + 0.1 * dt,
        velocity_uncertainty := p.1.velocity_uncertainty + 0.05 * dt,
        track := p.1.track ++ [(p.1.current_lat, p.1.current_lon)] }
      (sF, some ⟨sF.current_lat, sF.current_lon, p.2,
                 degreesT T p.1.current_heading, InsMode.ins, 0⟩)

end App

namespace Viewer

/-- Source tag of a track entry in log_viewer.py. -/
inductive Tag
  | gps
  | ins
  | fused
  | memory
deriving DecidableEq

/-- Mutable state of GPSINSFusion in log_viewer.py (lines 821-849). -/
structure State where
  current_lat : ℚ
  current_lon : ℚ
  velocity_north : ℚ
  velocity_east : ℚ
  position_uncertainty : ℚ
  velocity_uncertainty : ℚ
  last_gps_lat : ℚ
  last_gps_lon : ℚ
  last_gps_time : Option ℚ
  memory_velocity_north : ℚ
  memory_velocity_east : ℚ
  memory_heading : ℚ
  memory_speed : ℚ
  is_memory_mode : Bool
  memory_mode_start_time : Option ℚ
  last_good_gps_time : Option ℚ
  track : List (ℚ × ℚ × Tag)
deriving DecidableEq

/-- GPSINSFusion.__init__ of log_viewer.py: start at the given position with
a single gps-tagged track entry. -/
def init (start_lat start_lon : ℚ) : State :=
  ⟨start_lat, start_lon, 0, 0, 10, 1, start_lat, start_lon, none,
   0, 0, 0, 0, false, none, none, [(start_lat, start_lon, Tag.gps)]⟩

/-- GPSINSFusion.update_gps of log_viewer.py (lines 851-901). -/
def update_gps (T : TrigOps) (s : State)
    (lat lon speed course accuracy timestamp : ℚ) : State :=
  let s1 :=
    if 0 ≤ accuracy ∧ accuracy < 15 then
      let sA :=
        if 0 ≤ course ∧ speed > 0.3 then
          let course_rad := radiansT T course
          { s with memory_velocity_north := speed * T.cos course_rad,
                   memory_velocity_east := speed * T.sin course_rad,
                   memory_heading := course_rad,
                   memory_speed := speed }
        else s
      let sB := { sA with last_good_gps_time := some timestamp }
      if sB.is_memory_mode = true then
        { sB with is_memory_mode := false, memory_mode_start_time := none }
      else sB
    else s
  if accuracy < 0 ∨ 30 ≤ accuracy then
    if s1.is_memory_mode = false ∧ s1.memory_speed > 0.3 then
      { s1 with is_memory_mode := true, memory_mode_start_time := some timestamp }
    else s1
  else
    let gps_weight := 1 / (1 + accuracy / 10)
    let s2 := { s1 with
      current_lat := (1 - gps_weight) * s1.current_lat + gps_weight * lat,
      current_lon := (1 - gps_weight) * s1.current_lon + gps_weight * lon }
    let s3 :=
      if 0 ≤ speed ∧ 0 ≤ course then
        let course_rad := radiansT T course
        let vel_weight := gps_weight * 0.8
        { s2 with
          velocity_north := (1 - vel_weight) * s2.velocity_north
            + vel_weight * (speed * T.cos course_rad),
          velocity_east := (1 - vel_weight) * s2.velocity_east
            + vel_weight * (speed * T.sin course_rad) }
      else s2
    let s4 := { s3 with position_uncertainty := accuracy,
                        velocity_uncertainty := accuracy / 10,
                        last_gps_lat := lat,
                        last_gps_lon := lon,
                        last_gps_time := some timestamp }
    { s4 with track := s4.track ++ [(s4.current_lat, s4.current_lon, Tag.fused)] }

/-- Memory-track branch of update_ins (log_viewer.py lines 924-953): the
memory heading is set directly from the absolute yaw by the fixed rotation
3*pi/2 - yaw, the memory velocity decays, then the position is advanced. -/
def memoryStep (T : TrigOps) (s : State) (attitude : Option (ℚ × ℚ × ℚ))
    (dt : ℚ) : State :=
  let s1 :=
    match attitude with
    | some (_r, _p, yaw) => { s with memory_heading := 3 * T.pi / 2 - yaw }
    | none => s
  let s2 := { s1 with memory_velocity_north := s1.memory_velocity_north * 0.98,
                      memory_velocity_east := s1.memory_velocity_east * 0.98,
                      memory_speed := s1.memory_speed * 0.98 }
  let vel_north := s2.memory_speed * T.cos s2.memory_heading
  let vel_east := s2.memory_speed * T.sin s2.memory_heading
  let delta_lat := vel_north * dt / EARTH_RADIUS
  let delta_lon := vel_east * dt / (EARTH_RADIUS * T.cos (radiansT T s2.current_lat))
  { s2 with current_lat := s2.current_lat + degreesT T delta_lat,
            current_lon := s2.current_lon + degreesT T delta_lon }

/-- Normal INS branch of update_ins (log_viewer.py lines 955-1016).  Unlike
the mobile-app variant, the stationarity threshold is 0.03 and the motion
threshold is tested on the pitch/roll-corrected components. -/
def insStep (T : TrigOps) (s : State) (user_accel attitude : Option (ℚ × ℚ × ℚ))
    (dt : ℚ) : State :=
  let cur_roll :=
    match attitude with
    | some (r, _p, _y) => r
    | none => 0
  let cur_pitch :=
    match attitude with
    | some (_r, p, _y) => p
    | none => 0
  let heading :=
    match attitude with
    | some (_r, _p, y) => 3 * T.pi / 2 - y
    | none => 0
  let s1 :=
    match user_accel with
    | some (ax, ay, az) =>
      let cos_pitch := T.cos cur_pitch
      let sin_pitch := T.sin cur_pitch
      let cos_roll := T.cos cur_roll
      let ay_corrected := ay * cos_pitch - az * sin_pitch
      let ax_corrected := ax * cos_roll
      let accel_north := ay_corrected * T.cos heading - ax_corrected * T.sin heading
      let accel_east := ay_corrected * T.sin heading + ax_corrected * T.cos heading
      let accel_mag := T.sqrt (ax * ax + ay * ay + az * az)
      if |accel_mag| < 0.03 then
        { s with velocity_north := s.velocity_north * 0.8,
                 velocity_east := s.velocity_east * 0.8 }
      else if |ay_corrected| > 0.05 ∨ |ax_corrected| > 0.05 then
        { s with velocity_north := s.velocity_north + accel_north * 9.81 * dt,
                 velocity_east := s.velocity_east + accel_east * 9.81 * dt }
      else s
    | none => s
  let s2 := { s1 with velocity_north := s1.velocity_north * 0.99,
                      velocity_east := s1.velocity_east * 0.99 }
  let speed := T.sqrt (s2.velocity_north ^ 2 + s2.velocity_east ^ 2)
  let s3 :=
    if speed > 10 then
      let scale := 10 / speed
      { s2 with velocity_north := s2.velocity_north * scale,
                velocity_east := s2.velocity_east * scale }
    else s2
  let delta_lat := s3.velocity_north * dt / EARTH_RADIUS
  let delta_lon := s3.velocity_east * dt / (EARTH_RADIUS * T.cos (radiansT T s3.current_lat))
  { s3 with current_lat := s3.current_lat + degreesT T delta_lat,
            current_lon := s3.current_lon + degreesT T delta_lon }

/-- GPSINSFusion.update_ins of log_viewer.py (lines 903-1022): a call with
dt at or below 0 returns immediately; otherwise the memory-track branch is
taken exactly when the memory flag is set, both the stored start timestamp
and the passed timestamp are truthy, less than 60 s elapsed since mode entry
and the remembered speed exceeds 0.3; both uncertainties then grow with dt
and one typed track entry is appended. -/
def update_ins (T : TrigOps) (s : State) (user_accel attitude : Option (ℚ × ℚ × ℚ))
    (dt : ℚ) (timestamp : Option ℚ) : State :=
  if dt ≤ 0 then s
  else
    if s.is_memory_mode = true ∧ truthyQ s.memory_mode_start_time = true ∧
        truthyQ timestamp = true ∧
        timestamp.getD 0 - s.memory_mode_start_time.getD 0 < 60 ∧
        s.memory_speed > 0.3 then
      let s1 := memoryStep T s attitude dt
      { s1 with position_uncertainty := s1.position_uncertainty + 0.5 * dt,
                velocity_uncertainty := s1.velocity_uncertainty + 0.1 * dt,
                track := s1.track ++ [(s1.current_lat, s1.current_lon, Tag.memory)] }
    else
      let s1 := insStep T s user_accel attitude dt
      { s1 with position_uncertainty := s1.position_uncertainty + 0.5 * dt,
                velocity_uncertainty := s1.velocity_uncertainty + 0.1 * dt,
                track := s1.track ++ [(s1.current_lat, s1.current_lon, Tag.ins)] }

end Viewer

/-- Concrete math-operations record used to evaluate the model at specific
inputs; its pi field carries the double-precision value of math.pi as a
rational, and the trig fields are placeholders for paths that never consult
them. -/
def TQ : TrigOps := ⟨fun _ => 0, fun _ => 0, fun _ => 0, 3141592653589793 / 1000000000000000⟩

/-- Concrete app-variant state sitting in memory-track mode (entered at
timestamp 5 with remembered speed 1), used to evaluate theorems about the
memory-track life cycle. -/
def appMemState : App.State :=
  { App.init_pos App.reset 35 139 with
    is_memory_mode := true,
    memory_mode_start_time := some 5,
    memory_speed := 1 }

/-- Concrete viewer-variant state sitting in memory-track mode (entered at
timestamp 5 with remembered speed 1). -/
def viewerMemState : Viewer.State :=
  { Viewer.init 35 139 with
    is_memory_mode := true,
    memory_mode_start_time := some 5,
    memory_speed := 1 }

/-- Concrete app-variant state with a stored previous yaw of 3.13 rad, used
to evaluate the heading-wrap theorems. -/
def appYawState : App.State :=
  { App.init_pos App.reset 35 139 with
    last_yaw := some 3.13 }

/-- Concrete anchored altitude-fusion state: satellite anchor 100 m,
barometric reference 0, fused altitude 100 m. -/
def altAnchored : Alt.AltState := ⟨some 100, some 0, some 100, 0⟩

/-- Fields of the app-variant state that the memory-track branch of update_ins
never touches: both uncertainties and the track. -/
theorem app_memoryStep_fields (T : TrigOps) (s : App.State)
    (att : Option (ℚ × ℚ × ℚ)) (dt : ℚ) :
    (App.memoryStep T s att dt).1.position_uncertainty = s.position_uncertainty ∧
    (App.memoryStep T s att dt).1.velocity_uncertainty = s.velocity_uncertainty ∧
    (App.memoryStep T s att dt).1.track = s.track := by
  unfold App.memoryStep
  rcases att with _ | ⟨r, p, y⟩ <;> rcases hly : s.last_yaw with _ | ly <;> simp [hly]

/-- Fields of the app-variant state that the normal INS branch of update_ins
never touches: both uncertainties, the track and the whole memory sub-state. -/
theorem app_insStep_fields (T : TrigOps) (s : App.State)
    (ua att : Option (ℚ × ℚ × ℚ)) (dt : ℚ) :
    (App.insStep T s ua att dt).1.position_uncertainty = s.position_uncertainty ∧
    (App.insStep T s ua att dt).1.velocity_uncertainty = s.velocity_uncertainty ∧
    (App.insStep T s ua att dt).1.track = s.track ∧
    (App.insStep T s ua att dt).1.memory_speed = s.memory_speed ∧
    (App.insStep T s ua att dt).1.memory_velocity_north = s.memory_velocity_north ∧
    (App.insStep T s ua att dt).1.memory_velocity_east = s.memory_velocity_east := by
  unfold App.insStep
  rcases att with _ | ⟨r, p, y⟩ <;> rcases ua with _ | ⟨ax, ay, az⟩ <;>
    rcases hly : s.last_yaw with _ | ly <;> simp [hly] <;> split_ifs <;> simp

/-- Fields of the viewer-variant state that the memory-track branch of
update_ins never touches: both uncertainties and the track. -/
theorem viewer_memoryStep_fields (T : TrigOps) (s : Viewer.State)
    (att : Option (ℚ × ℚ × ℚ)) (dt : ℚ) :
    (Viewer.memoryStep T s att dt).position_uncertainty = s.position_uncertainty ∧
    (Viewer.memoryStep T s att dt).velocity_uncertainty = s.velocity_uncertainty ∧
    (Viewer.memoryStep T s att dt).track = s.track := by
  unfold Viewer.memoryStep
  rcases att with _ | ⟨r, p, y⟩ <;> simp

/-- Fields of the viewer-variant state that the normal INS branch of
update_ins never touches: both uncertainties, the track and the memory
sub-state. -/
theorem viewer_insStep_fields (T : TrigOps) (s : Viewer.State)
    (ua att : Option (ℚ × ℚ × ℚ)) (dt : ℚ) :
    (Viewer.insStep T s ua att dt).position_uncertainty = s.position_uncertainty ∧
    (Viewer.insStep T s ua att dt).velocity_uncertainty = s.velocity_uncertainty ∧
    (Viewer.insStep T s ua att dt).track = s.track ∧
    (Viewer.insStep T s ua att dt).memory_speed = s.memory_speed ∧
    (Viewer.insStep T s ua att dt).memory_velocity_north = s.memory_velocity_north ∧
    (Viewer.insStep T s ua att dt).memory_velocity_east = s.memory_velocity_east := by
  unfold Viewer.insStep
  rcases att with _ | ⟨r, p, y⟩ <;> rcases ua with _ | ⟨ax, ay, az⟩ <;>
    simp <;> split_ifs <;> simp

/-- C1: on an initialized engine, a fix whose horizontal accuracy is negative
or at/above 30 m leaves position, velocity, heading, uncertainties and the
track untouched in both update_gps variants; the only effect is entering
memory-track mode (setting the flag and recording the entry timestamp) when
the engine is not already in that mode and the remembered speed exceeds
0.3 m/s. -/
theorem poor_fix_only_enters_memory_mode (T : TrigOps) (s : App.State)
    (sv : Viewer.State) (lat lon speed course accuracy now : ℚ)
    (hinit : s.is_initialized = true)
    (hpoor : accuracy < 0 ∨ 30 ≤ accuracy) :
    App.update_gps T s lat lon speed course accuracy now =
      (if s.is_memory_mode = false ∧ s.memory_speed > 0.3 then
        { s with is_memory_mode := true, memory_mode_start_time := some now }
      else s) ∧
    Viewer.update_gps T sv lat lon speed course accuracy now =
      (if sv.is_memory_mode = false ∧ sv.memory_speed > 0.3 then
        { sv with is_memory_mode := true, memory_mode_start_time := some now }
      else sv) := by
  have h15 : ¬ (0 ≤ accuracy ∧ accuracy < 15) := by
    rintro ⟨h1, h2⟩
    rcases hpoor with h | h <;> linarith
  have hini : ¬ (s.is_initialized = false) := by simp [hinit]
  constructor
  · simp only [App.update_gps, if_neg hini, if_neg h15, if_pos hpoor]
  · simp only [Viewer.update_gps, if_neg h15, if_pos hpoor]

/-- Witness for the poor-fix theorem at a concrete initialized state with
remembered speed 0 (so no mode change happens). -/
theorem poor_fix_only_enters_memory_mode_witness :
    ((App.init_pos App.reset 35 139).is_initialized = true ∧
      ((100 : ℚ) < 0 ∨ 30 ≤ (100 : ℚ))) ∧
    App.update_gps TQ (App.init_pos App.reset 35 139) 35 139 1 90 100 7 =
      App.init_pos App.reset 35 139 ∧
    Viewer.update_gps TQ (Viewer.init 35 139) 35 139 1 90 100 7 =
      Viewer.init 35 139 := by
  refine ⟨⟨rfl, by norm_num⟩, ?_⟩
  have h := poor_fix_only_enters_memory_mode TQ (App.init_pos App.reset 35 139)
    (Viewer.init 35 139) 35 139 1 90 100 7 rfl (by norm_num)
  norm_num [App.init_pos, App.reset, Viewer.init] at h
  exact h

/-- C2: for positive dt the prediction step of either variant never decreases
position or velocity uncertainty, and a measurement update with usable
accuracy (at least 0 and below 30 m) leaves position uncertainty at most the
maximum of its previous value and the accuracy of the fix. -/
theorem uncertainty_monotone (T : TrigOps) (s : App.State) (sv : Viewer.State)
    (ua att : Option (ℚ × ℚ × ℚ)) (tso : Option ℚ)
    (lat lon speed course accuracy dt now : ℚ)
    (hdt : 0 < dt) (hacc0 : 0 ≤ accuracy) (hacc30 : accuracy < 30) :
    (s.position_uncertainty ≤ (App.update_ins T s ua att dt now).1.position_uncertainty ∧
     s.velocity_uncertainty ≤ (App.update_ins T s ua att dt now).1.velocity_uncertainty) ∧
    (sv.position_uncertainty ≤ (Viewer.update_ins T sv ua att dt tso).position_uncertainty ∧
     sv.velocity_uncertainty ≤ (Viewer.update_ins T sv ua att dt tso).velocity_uncertainty) ∧
    (App.update_gps T s lat lon speed course accuracy now).position_uncertainty ≤
      max s.position_uncertainty accuracy ∧
    (Viewer.update_gps T sv lat lon speed course accuracy now).position_uncertainty ≤
      max sv.position_uncertainty accuracy := by
  have hp : ¬ (accuracy < 0 ∨ 30 ≤ accuracy) := by
    push_neg
    exact ⟨hacc0, hacc30⟩
  refine ⟨⟨?_, ?_⟩, ⟨?_, ?_⟩, ?_, ?_⟩
  · simp only [App.update_ins]
    split_ifs
    · simp
    · have hm := (app_memoryStep_fields T s att dt).1
      simp [hm]
      linarith
    · have hm := (app_insStep_fields T s ua att dt).1
      simp [hm]
      linarith
  · simp only [App.update_ins]
    split_ifs
    · simp
    · have hm := (app_memoryStep_fields T s att dt).2.1
      simp [hm]
      linarith
    · have hm := (app_insStep_fields T s ua att dt).2.1
      simp [hm]
      linarith
  · simp only [Viewer.update_ins]
    split_ifs
    · exact le_refl _
    · have hm := (viewer_memoryStep_fields T sv att dt).1
      simp [hm]
      linarith
    · have hm := (viewer_insStep_fields T sv ua att dt).1
      simp [hm]
      linarith
  · simp only [Viewer.update_ins]
    split_ifs
    · exact le_refl _
    · have hm := (viewer_memoryStep_fields T sv att dt).2.1
      simp [hm]
      linarith
    · have hm := (viewer_insStep_fields T sv ua att dt).2.1
      simp [hm]
      linarith
  · by_cases hini : s.is_initialized = false
    · simp only [App.update_gps, if_pos hini, App.init_pos]
      exact le_max_left s.position_uncertainty accuracy
    · have hunc : (App.update_gps T s lat lon speed course accuracy now).position_uncertainty
          = accuracy * 0.5 + s.position_uncertainty * 0.5 := by
        simp only [App.update_gps, if_neg hini, if_neg hp]
        split_ifs <;> simp
      rw [hunc]
      rcases le_total accuracy s.position_uncertainty with h | h
      · have := le_max_left s.position_uncertainty accuracy
        linarith
      · have := le_max_right s.position_uncertainty accuracy
        linarith
  · have hunc : (Viewer.update_gps T sv lat lon speed course accuracy now).position_uncertainty
        = accuracy := by
      simp only [Viewer.update_gps, if_neg hp]
    rw [hunc]
    exact le_max_right sv.position_uncertainty accuracy

/-- Witness for the uncertainty-monotonicity theorem at dt = 1 and a usable
accuracy of 5 m. -/
theorem uncertainty_monotone_witness :
    ((0 : ℚ) < 1 ∧ (0 : ℚ) ≤ 5 ∧ (5 : ℚ) < 30) ∧
    (((App.init_pos App.reset 35 139).position_uncertainty ≤
        (App.update_ins TQ (App.init_pos App.reset 35 139) none none 1 9).1.position_uncertainty ∧
      (App.init_pos App.reset 35 139).velocity_uncertainty ≤
        (App.update_ins TQ (App.init_pos App.reset 35 139) none none 1 9).1.velocity_uncertainty) ∧
     ((Viewer.init 35 139).position_uncertainty ≤
        (Viewer.update_ins TQ (Viewer.init 35 139) none none 1 none).position_uncertainty ∧
      (Viewer.init 35 139).velocity_uncertainty ≤
        (Viewer.update_ins TQ (Viewer.init 35 139) none none 1 none).velocity_uncertainty) ∧
     (App.update_gps TQ (App.init_pos App.reset 35 139) 35 139 1 90 5 9).position_uncertainty ≤
       max (App.init_pos App.reset 35 139).position_uncertainty 5 ∧
     (Viewer.update_gps TQ (Viewer.init 35 139) 35 139 1 90 5 9).position_uncertainty ≤
       max (Viewer.init 35 139).position_uncertainty 5) :=
  ⟨⟨by norm_num, by norm_num, by norm_num⟩,
   uncertainty_monotone TQ (App.init_pos App.reset 35 139) (Viewer.init 35 139)
     none none none 35 139 1 90 5 1 9 (by norm_num) (by norm_num) (by norm_num)⟩

/-- C3: when the engine is in memory-track mode but 60 s or more have elapsed
since mode entry, or the remembered speed has decayed to 0.3 m/s or below,
the prediction step does not apply memory extrapolation: the app variant
reports mode ins in its result dictionary, and the viewer variant appends a
track entry tagged ins (not memory) while leaving the remembered speed
undecayed.  No fix is needed for this expiry. -/
theorem memory_track_auto_expires (T : TrigOps) (s : App.State) (sv : Viewer.State)
    (ua att : Option (ℚ × ℚ × ℚ)) (dt now t0 ts tv0 : ℚ)
    (hinit : s.is_initialized = true)
    (hmem : s.is_memory_mode = true) (hstart : s.memory_mode_start_time = some t0)
    (ht0 : t0 ≠ 0)
    (hexp : 60 ≤ now - t0 ∨ s.memory_speed ≤ 0.3)
    (hdt : 0 < dt)
    (hvmem : sv.is_memory_mode = true) (hvstart : sv.memory_mode_start_time = some tv0)
    (htv0 : tv0 ≠ 0) (hts : ts ≠ 0)
    (hvexp : 60 ≤ ts - tv0 ∨ sv.memory_speed ≤ 0.3) :
    (∃ out, (App.update_ins T s ua att dt now).2 = some out ∧
      out.mode = App.InsMode.ins) ∧
    (∃ la lo, (Viewer.update_ins T sv ua att dt (some ts)).track
      = sv.track ++ [(la, lo, Viewer.Tag.ins)]) ∧
    (Viewer.update_ins T sv ua att dt (some ts)).memory_speed = sv.memory_speed := by
  have hini : ¬ (s.is_initialized = false) := by simp [hinit]
  have hc : ¬ (s.is_memory_mode = true ∧ truthyQ s.memory_mode_start_time = true ∧
      now - s.memory_mode_start_time.getD 0 < 60 ∧ s.memory_speed > 0.3) := by
    rw [hstart]
    rintro ⟨-, -, h1, h2⟩
    simp only [Option.getD_some] at h1
    rcases hexp with h | h <;> linarith
  have hvc : ¬ (sv.is_memory_mode = true ∧ truthyQ sv.memory_mode_start_time = true ∧
      truthyQ (some ts) = true ∧
      (some ts).getD 0 - sv.memory_mode_start_time.getD 0 < 60 ∧
      sv.memory_speed > 0.3) := by
    rw [hvstart]
    rintro ⟨-, -, -, h1, h2⟩
    simp only [Option.getD_some] at h1
    rcases hvexp with h | h <;> linarith
  have hndt : ¬ (dt ≤ 0) := by linarith
  refine ⟨?_, ?_, ?_⟩
  · simp only [App.update_ins, if_neg hini, if_neg hc]
    exact ⟨_, rfl, rfl⟩
  · simp only [Viewer.update_ins, if_neg hndt, if_neg hvc]
    refine ⟨(Viewer.insStep T sv ua att dt).current_lat,
      (Viewer.insStep T sv ua att dt).current_lon, ?_⟩
    simp [(viewer_insStep_fields T sv ua att dt).2.2.1]
  · simp only [Viewer.update_ins, if_neg hndt, if_neg hvc]
    simp [(viewer_insStep_fields T sv ua att dt).2.2.2.1]

/-- Witness for memory-track expiry: mode was entered at timestamp 5 and the
prediction tick happens at timestamp 100, more than 60 s later. -/
theorem memory_track_auto_expires_witness :
    (appMemState.is_initialized = true ∧ appMemState.is_memory_mode = true ∧
      appMemState.memory_mode_start_time = some 5 ∧ (5 : ℚ) ≠ 0 ∧
      (60 ≤ (100 : ℚ) - 5 ∨ appMemState.memory_speed ≤ 0.3) ∧ (0 : ℚ) < 1 ∧
      viewerMemState.is_memory_mode = true ∧
      viewerMemState.memory_mode_start_time = some 5 ∧ (100 : ℚ) ≠ 0 ∧
      (60 ≤ (100 : ℚ) - 5 ∨ viewerMemState.memory_speed ≤ 0.3)) ∧
    ((∃ out, (App.update_ins TQ appMemState none none 1 100).2 = some out ∧
        out.mode = App.InsMode.ins) ∧
     (∃ la lo, (Viewer.update_ins TQ viewerMemState none none 1 (some 100)).track
        = viewerMemState.track ++ [(la, lo, Viewer.Tag.ins)]) ∧
     (Viewer.update_ins TQ viewerMemState none none 1 (some 100)).memory_speed
        = viewerMemState.memory_speed) :=
  ⟨⟨rfl, rfl, rfl, by norm_num, Or.inl (by norm_num), by norm_num, rfl, rfl,
    by norm_num, Or.inl (by norm_num)⟩,
   memory_track_auto_expires TQ appMemState viewerMemState none none 1 100 5 100 5
     rfl rfl rfl (by norm_num) (Or.inl (by norm_num)) (by norm_num) rfl rfl
     (by norm_num) (by norm_num) (Or.inl (by norm_num))⟩

set_option maxHeartbeats 2000000 in
/-- C4 counterexample: in the app variant a prediction call with dt = 0 on an
initialized state is not a no-op — it appends a track entry, so the claim
that every update_ins call with nonpositive dt leaves the track unchanged is
false on this variant. -/
theorem app_update_ins_zero_dt_not_noop :
    ¬ ((App.update_ins TQ (App.init_pos App.reset 35 139) none none 0 5).1.track
        = (App.init_pos App.reset 35 139).track) := by
  have h2 : (App.update_ins TQ (App.init_pos App.reset 35 139) none none 0 5).1.track.length
      = 2 := by
    norm_num [App.update_ins, App.init_pos, App.reset, App.insStep, truthyQ,
      degreesT, EARTH_RADIUS, radiansT]
  intro h
  rw [h] at h2
  norm_num [App.init_pos, App.reset] at h2

/-- C4 amended: only the viewer variant guards the prediction step on dt: a
call with dt at or below 0 is a strict no-op there, while the app variant has
no dt guard and any call on an initialized state appends a track entry (and
so is not a no-op) even when dt is nonpositive. -/
theorem update_ins_nonpositive_dt (T : TrigOps) (s : App.State) (sv : Viewer.State)
    (ua att : Option (ℚ × ℚ × ℚ)) (dt now : ℚ) (tso : Option ℚ)
    (hdt : dt ≤ 0) (hinit : s.is_initialized = true) :
    Viewer.update_ins T sv ua att dt tso = sv ∧
    (App.update_ins T s ua att dt now).1.track.length = s.track.length + 1 := by
  constructor
  · simp only [Viewer.update_ins, if_pos hdt]
  · have hini : ¬ (s.is_initialized = false) := by simp [hinit]
    simp only [App.update_ins, if_neg hini]
    split_ifs
    · have hm := (app_memoryStep_fields T s att dt).2.2
      simp [hm]
    · have hm := (app_insStep_fields T s ua att dt).2.2.1
      simp [hm]

/-- Witness for the dt guard divergence at dt = 0. -/
theorem update_ins_nonpositive_dt_witness :
    ((0 : ℚ) ≤ 0 ∧ (App.init_pos App.reset 35 139).is_initialized = true) ∧
    (Viewer.update_ins TQ (Viewer.init 35 139) none none 0 none = Viewer.init 35 139 ∧
     (App.update_ins TQ (App.init_pos App.reset 35 139) none none 0 5).1.track.length
       = (App.init_pos App.reset 35 139).track.length + 1) :=
  ⟨⟨le_refl 0, rfl⟩,
   update_ins_nonpositive_dt TQ (App.init_pos App.reset 35 139) (Viewer.init 35 139)
     none none 0 5 none (le_refl 0) rfl⟩

/-- C5 counterexample: a rejected poor fix (accuracy 100) appends no track
entry, so the track does not grow by one on every update_gps call. -/
theorem track_not_grown_by_poor_fix :
    (Viewer.update_gps TQ (Viewer.init 35 139) 35 139 (-1) (-1) 100 1).track.length
      ≠ (Viewer.init 35 139).track.length + 1 := by
  norm_num [Viewer.update_gps, Viewer.init]

/-- C5 amended: the track is append-only — no call removes or modifies an
existing entry — and exactly one entry is appended per processed call: a
usable-accuracy fix appends one entry in either variant, a rejected poor fix
appends none, the app prediction step always appends one on an initialized
state, and the viewer prediction step appends one exactly when dt is
positive. -/
theorem track_append_only (T : TrigOps) (s : App.State) (sv : Viewer.State)
    (ua att : Option (ℚ × ℚ × ℚ)) (tso : Option ℚ)
    (lat lon speed course accuracy dt now : ℚ)
    (hinit : s.is_initialized = true) :
    (0 ≤ accuracy → accuracy < 30 →
      (∃ e, (App.update_gps T s lat lon speed course accuracy now).track
        = s.track ++ [e]) ∧
      (∃ e, (Viewer.update_gps T sv lat lon speed course accuracy now).track
        = sv.track ++ [e])) ∧
    (accuracy < 0 ∨ 30 ≤ accuracy →
      (App.update_gps T s lat lon speed course accuracy now).track = s.track ∧
      (Viewer.update_gps T sv lat lon speed course accuracy now).track = sv.track) ∧
    (∃ e, (App.update_ins T s ua att dt now).1.track = s.track ++ [e]) ∧
    (0 < dt → ∃ e, (Viewer.update_ins T sv ua att dt tso).track = sv.track ++ [e]) ∧
    (dt ≤ 0 → (Viewer.update_ins T sv ua att dt tso).track = sv.track) := by
  have hini : ¬ (s.is_initialized = false) := by simp [hinit]
  refine ⟨?_, ?_, ?_, ?_, ?_⟩
  · intro h0 h30
    have hp : ¬ (accuracy < 0 ∨ 30 ≤ accuracy) := by
      push_neg
      exact ⟨h0, h30⟩
    constructor
    · simp only [App.update_gps, if_neg hini, if_neg hp]
      split_ifs <;> exact ⟨_, rfl⟩
    · simp only [Viewer.update_gps, if_neg hp]
      split_ifs <;> exact ⟨_, rfl⟩
  · intro hpoor
    have h15 : ¬ (0 ≤ accuracy ∧ accuracy < 15) := by
      rintro ⟨h1, h2⟩
      rcases hpoor with h | h <;> linarith
    constructor
    · simp only [App.update_gps, if_neg hini, if_neg h15, if_pos hpoor]
      split_ifs <;> rfl
    · simp only [Viewer.update_gps, if_neg h15, if_pos hpoor]
      split_ifs <;> rfl
  · simp only [App.update_ins, if_neg hini]
    split_ifs
    · exact ⟨((App.memoryStep T s att dt).1.current_lat,
        (App.memoryStep T s att dt).1.current_lon),
        by simp [(app_memoryStep_fields T s att dt).2.2]⟩
    · exact ⟨((App.insStep T s ua att dt).1.current_lat,
        (App.insStep T s ua att dt).1.current_lon),
        by simp [(app_insStep_fields T s ua att dt).2.2.1]⟩
  · intro hdt
    have hndt : ¬ (dt ≤ 0) := by linarith
    simp only [Viewer.update_ins, if_neg hndt]
    split_ifs
    · exact ⟨((Viewer.memoryStep T sv att dt).current_lat,
        (Viewer.memoryStep T sv att dt).current_lon, Viewer.Tag.memory),
        by simp [(viewer_memoryStep_fields T sv att dt).2.2]⟩
    · exact ⟨((Viewer.insStep T sv ua att dt).current_lat,
        (Viewer.insStep T sv ua att dt).current_lon, Viewer.Tag.ins),
        by simp [(viewer_insStep_fields T sv ua att dt).2.2.1]⟩
  · intro hdt
    simp only [Viewer.update_ins, if_pos hdt]

/-- Witness for the append-only track discipline at a usable accuracy of 5,
a poor accuracy handled by the same theorem at accuracy 5 being usable, and a
prediction step of dt = 1. -/
theorem track_append_only_witness :
    ((App.init_pos App.reset 35 139).is_initialized = true ∧ (0 : ℚ) ≤ 5 ∧
      (5 : ℚ) < 30 ∧ (0 : ℚ) < 1) ∧
    ((∃ e, (App.update_gps TQ (App.init_pos App.reset 35 139) 35 139 1 90 5 9).track
        = (App.init_pos App.reset 35 139).track ++ [e]) ∧
     (∃ e, (Viewer.update_gps TQ (Viewer.init 35 139) 35 139 1 90 5 9).track
        = (Viewer.init 35 139).track ++ [e])) ∧
    (∃ e, (App.update_ins TQ (App.init_pos App.reset 35 139) none none 1 9).1.track
        = (App.init_pos App.reset 35 139).track ++ [e]) ∧
    (∃ e, (Viewer.update_ins TQ (Viewer.init 35 139) none none 1 none).track
        = (Viewer.init 35 139).track ++ [e]) := by
  have h := track_append_only TQ (App.init_pos App.reset 35 139) (Viewer.init 35 139)
    none none none 35 139 1 90 5 1 9 rfl
  exact ⟨⟨rfl, by norm_num, by norm_num, by norm_num⟩,
    h.1 (by norm_num) (by norm_num), h.2.2.1, h.2.2.2.1 (by norm_num)⟩

/-- C6 counterexample: a fix at latitude 200, longitude 300 (far outside the
valid ranges) with usable accuracy 10 is not rejected by the viewer variant:
the position moves to the blend value 117.5 and a track entry is appended, so
the claim that out-of-range fixes leave position and track unchanged is
false. -/
theorem out_of_range_fix_not_rejected_cex :
    (Viewer.update_gps TQ (Viewer.init 35 139) 200 300 (-1) (-1) 10 1).current_lat
      = 235 / 2 ∧
    (235 / 2 : ℚ) ≠ (Viewer.init 35 139).current_lat ∧
    (Viewer.update_gps TQ (Viewer.init 35 139) 200 300 (-1) (-1) 10 1).track.length
      = (Viewer.init 35 139).track.length + 1 := by
  refine ⟨?_, by norm_num [Viewer.init], ?_⟩ <;>
    norm_num [Viewer.update_gps, Viewer.init]

/-- C6 amended: neither update_gps variant validates latitude or longitude at
all: a fix whose coordinates lie outside the valid ranges but whose accuracy
is usable is processed exactly like any in-range fix — its coordinates are
blended into the position with the ordinary accuracy weight (so the fix is
neither rejected nor clamped) and a track entry is appended; the only
rejection in update_gps is the accuracy-based one. -/
theorem out_of_range_fix_blended (T : TrigOps) (s : App.State) (sv : Viewer.State)
    (lat lon speed course accuracy now : ℚ)
    (hrange : 90 < lat ∨ lat < -90 ∨ 180 < lon ∨ lon < -180)
    (hacc0 : 0 ≤ accuracy) (hacc30 : accuracy < 30)
    (hinit : s.is_initialized = true) :
    (App.update_gps T s lat lon speed course accuracy now).current_lat
      = (1 - 1 / (1 + accuracy / 10)) * s.current_lat
        + (1 / (1 + accuracy / 10)) * lat ∧
    (Viewer.update_gps T sv lat lon speed course accuracy now).current_lat
      = (1 - 1 / (1 + accuracy / 10)) * sv.current_lat
        + (1 / (1 + accuracy / 10)) * lat ∧
    (App.update_gps T s lat lon speed course accuracy now).track.length
      = s.track.length + 1 ∧
    (Viewer.update_gps T sv lat lon speed course accuracy now).track.length
      = sv.track.length + 1 := by
  have hini : ¬ (s.is_initialized = false) := by simp [hinit]
  have hp : ¬ (accuracy < 0 ∨ 30 ≤ accuracy) := by
    push_neg
    exact ⟨hacc0, hacc30⟩
  refine ⟨?_, ?_, ?_, ?_⟩
  · simp only [App.update_gps, if_neg hini, if_neg hp]
    split_ifs <;> simp
  · simp only [Viewer.update_gps, if_neg hp]
    split_ifs <;> simp
  · simp only [App.update_gps, if_neg hini, if_neg hp]
    split_ifs <;> simp
  · simp only [Viewer.update_gps, if_neg hp]
    split_ifs <;> simp

/-- Witness for the out-of-range blend at latitude 200, longitude 300,
accuracy 10. -/
theorem out_of_range_fix_blended_witness :
    (((90 : ℚ) < 200 ∨ (200 : ℚ) < -90 ∨ (180 : ℚ) < 300 ∨ (300 : ℚ) < -180) ∧
      (0 : ℚ) ≤ 10 ∧ (10 : ℚ) < 30 ∧
      (App.init_pos App.reset 35 139).is_initialized = true) ∧
    ((App.update_gps TQ (App.init_pos App.reset 35 139) 200 300 (-1) (-1) 10 9).current_lat
      = (1 - 1 / (1 + 10 / 10)) * (App.init_pos App.reset 35 139).current_lat
        + (1 / (1 + 10 / 10)) * 200 ∧
     (Viewer.update_gps TQ (Viewer.init 35 139) 200 300 (-1) (-1) 10 9).current_lat
      = (1 - 1 / (1 + 10 / 10)) * (Viewer.init 35 139).current_lat
        + (1 / (1 + 10 / 10)) * 200 ∧
     (App.update_gps TQ (App.init_pos App.reset 35 139) 200 300 (-1) (-1) 10 9).track.length
      = (App.init_pos App.reset 35 139).track.length + 1 ∧
     (Viewer.update_gps TQ (Viewer.init 35 139) 200 300 (-1) (-1) 10 9).track.length
      = (Viewer.init 35 139).track.length + 1) :=
  ⟨⟨Or.inl (by norm_num), by norm_num, by norm_num, rfl⟩,
   out_of_range_fix_blended TQ (App.init_pos App.reset 35 139) (Viewer.init 35 139)
     200 300 (-1) (-1) 10 9 (Or.inl (by norm_num)) (by norm_num) (by norm_num) rfl⟩

/-- The inertial branch adds exactly the wrapped yaw delta to the current
heading (app variant) when an attitude sample is present and a previous yaw
is stored; the acceleration and clamping logic never touches the heading. -/
theorem app_insStep_heading (T : TrigOps) (s : App.State) (ua : Option (ℚ × ℚ × ℚ))
    (r p yaw ly dt : ℚ) (hly : s.last_yaw = some ly) :
    (App.insStep T s ua (some (r, p, yaw)) dt).1.current_heading
      = s.current_heading + wrapDelta T (yaw - ly) := by
  unfold App.insStep
  rcases ua with _ | ⟨ax, ay, az⟩ <;> simp [hly] <;> split_ifs <;> simp

/-- C7 counterexample: with pi at its double-precision value, the wrapped
delta for the yaw sequence 3.13 then -3.13 lies strictly between 0.0231 and
0.0233 — it is positive, not approximately -0.02 as claimed; moreover a raw
delta of exactly -pi stays at -pi, which is outside the half-open interval
(-pi, pi], so the wrap does not map every raw delta into (-pi, pi]. -/
theorem yaw_wrap_sign_cex :
    (0.0231 < wrapDelta TQ (-3.13 - 3.13) ∧ wrapDelta TQ (-3.13 - 3.13) < 0.0233) ∧
    ¬ (wrapDelta TQ (-3.13 - 3.13) < 0) ∧
    ¬ (-TQ.pi < wrapDelta TQ (-TQ.pi)) := by
  norm_num [wrapDelta, TQ]

/-- C7 amended: for positive pi the wrap maps every raw delta within
[-3 pi, 3 pi] into the closed interval [-pi, pi] (a delta of exactly -pi is
left unchanged, so -pi is attained and the interval is closed, not half
open); consecutive yaws each in (-pi, pi] always give a raw delta in that
domain.  With pi bounded as math.pi is, the yaw sequence 3.13 then -3.13
yields a wrapped delta strictly between 0.0231 and 0.0233 — magnitude about
0.02 but positive (roughly +0.023, not -0.02 and not about 6.26) — and the
inertial branch adds exactly that wrapped delta to the heading. -/
theorem yaw_wrap_range_and_value (T : TrigOps) (d : ℚ) (s : App.State)
    (ua : Option (ℚ × ℚ × ℚ)) (r p dt : ℚ)
    (hpi : 0 < T.pi) (hlo : -(3 * T.pi) ≤ d) (hhi : d ≤ 3 * T.pi)
    (hly : s.last_yaw = some (3.13 : ℚ)) :
    (-T.pi ≤ wrapDelta T d ∧ wrapDelta T d ≤ T.pi) ∧
    (3.141592 < T.pi → T.pi < 3.141593 →
      (0.0231 < wrapDelta T (-3.13 - 3.13) ∧ wrapDelta T (-3.13 - 3.13) < 0.0233) ∧
      (App.insStep T s ua (some (r, p, -3.13)) dt).1.current_heading
        = s.current_heading + wrapDelta T (-3.13 - 3.13)) := by
  constructor
  · unfold wrapDelta
    split_ifs <;> constructor <;> linarith
  · intro h1 h2
    refine ⟨?_, app_insStep_heading T s ua r p (-3.13) 3.13 dt hly⟩
    unfold wrapDelta
    split_ifs <;> constructor <;> linarith

/-- Witness for the wrap theorem at pi taken as the double-precision value of
math.pi and raw delta -6.26. -/
theorem yaw_wrap_range_and_value_witness :
    ((0 : ℚ) < TQ.pi ∧ -(3 * TQ.pi) ≤ (-3.13 - 3.13 : ℚ) ∧
      (-3.13 - 3.13 : ℚ) ≤ 3 * TQ.pi ∧
      appYawState.last_yaw = some (3.13 : ℚ) ∧
      3.141592 < TQ.pi ∧ TQ.pi < 3.141593) ∧
    (-TQ.pi ≤ wrapDelta TQ (-3.13 - 3.13) ∧ wrapDelta TQ (-3.13 - 3.13) ≤ TQ.pi) ∧
    (0.0231 < wrapDelta TQ (-3.13 - 3.13) ∧ wrapDelta TQ (-3.13 - 3.13) < 0.0233) ∧
    (App.insStep TQ appYawState none (some (0, 0, -3.13)) 1).1.current_heading
      = appYawState.current_heading + wrapDelta TQ (-3.13 - 3.13) := by
  have h := yaw_wrap_range_and_value TQ (-3.13 - 3.13) appYawState none 0 0 1
    (by norm_num [TQ]) (by norm_num [TQ]) (by norm_num [TQ]) rfl
  have h2 := h.2 (by norm_num [TQ]) (by norm_num [TQ])
  exact ⟨⟨by norm_num [TQ], by norm_num [TQ], by norm_num [TQ], rfl,
    by norm_num [TQ], by norm_num [TQ]⟩, h.1, h2.1, h2.2⟩

/-- C8: AltitudeFusion.update returns None (and changes nothing) while no
valid satellite altitude has arrived; the first valid (present and nonzero)
satellite altitude anchors both references — the barometric one defaulting to
0 when no barometric reading is present — and is returned; afterwards every
call that carries a barometric sample returns the anchored satellite altitude
plus the barometric delta from the anchored reference; concretely, anchoring
at 100 m and then rising 10 m barometrically with no further satellite
updates returns 110 m. -/
theorem altitude_anchor_then_baro_delta (s : Alt.AltState)
    (gps_alt gps_v_acc baro accel : Option ℚ) (dt ga br b g : ℚ) :
    (s.gps_altitude = none → (gps_alt = none ∨ gps_alt = some 0) →
      Alt.update s gps_alt gps_v_acc baro accel dt = (s, none)) ∧
    (s.gps_altitude = none → gps_alt = some g → g ≠ 0 →
      Alt.update s gps_alt gps_v_acc baro accel dt
        = (⟨some g, some (baro.getD 0), some g, s.vertical_velocity⟩, some g)) ∧
    (s.gps_altitude = some ga → s.baro_reference = some br → baro = some b →
      (Alt.update s gps_alt gps_v_acc baro accel dt).2 = some (ga + (b - br))) ∧
    (Alt.update (Alt.update Alt.init (some 100) none none none 1).1
        none none (some 10) none 1).2 = some 110 := by
  refine ⟨?_, ?_, ?_, ?_⟩
  · intro hga hinv
    rcases hinv with h | h <;> subst h <;> simp [Alt.update, hga]
  · intro hga hg hne
    subst hg
    simp [Alt.update, hga, hne]
  · intro hga hbr hb
    subst hb
    simp only [Alt.update, hga, hbr]
    rcases accel with _ | az <;> rcases gps_alt with _ | g0 <;>
      rcases gps_v_acc with _ | va <;> split_ifs <;> simp <;> split_ifs <;> simp
  · norm_num [Alt.update, Alt.init]

/-- Witness for the altitude-fusion contract: the anchored state was produced
by a first valid altitude of 100 m, and a later barometric reading of 10 m
with no satellite data returns 110 m. -/
theorem altitude_anchor_then_baro_delta_witness :
    (Alt.init.gps_altitude = none ∧ ((none : Option ℚ) = none ∨ (none : Option ℚ) = some 0) ∧
      altAnchored.gps_altitude = some 100 ∧ altAnchored.baro_reference = some 0 ∧
      (100 : ℚ) ≠ 0) ∧
    Alt.update Alt.init none none none none 1 = (Alt.init, none) ∧
    Alt.update Alt.init (some 100) none none none 1
      = (⟨some 100, some ((none : Option ℚ).getD 0), some 100, Alt.init.vertical_velocity⟩,
         some 100) ∧
    (Alt.update altAnchored none none (some 10) none 1).2 = some (100 + (10 - 0)) :=
  ⟨⟨rfl, Or.inl rfl, rfl, rfl, by norm_num⟩,
   (altitude_anchor_then_baro_delta Alt.init none none none none 1 0 0 0 0).1 rfl (Or.inl rfl),
   (altitude_anchor_then_baro_delta Alt.init (some 100) none none none 1 0 0 0 100).2.1
     rfl rfl (by norm_num),
   (altitude_anchor_then_baro_delta altAnchored none none (some 10) none 1 100 0 10 0).2.2.1
     rfl rfl rfl⟩

/-- C10: AltitudeFusion.update treats a satellite altitude equal to exactly 0
like an absent one in its initial-anchoring and fallback paths: before
anchoring, a call with gps_alt 0 returns None and changes nothing, exactly as
a call with gps_alt None does; after anchoring, when no barometric sample is
present, gps_alt 0 never replaces the fused altitude (the fallback requires a
nonzero value) and the old fused altitude is returned. -/
theorem altitude_zero_gps_like_absent (s : Alt.AltState)
    (gps_v_acc baro accel : Option ℚ) (dt ga : ℚ) :
    (s.gps_altitude = none →
      Alt.update s (some 0) gps_v_acc baro accel dt = (s, none) ∧
      Alt.update s (some 0) gps_v_acc baro accel dt
        = Alt.update s none gps_v_acc baro accel dt) ∧
    (s.gps_altitude = some ga →
      (Alt.update s (some 0) gps_v_acc none accel dt).1.fused_altitude
        = s.fused_altitude ∧
      (Alt.update s (some 0) gps_v_acc none accel dt).2 = s.fused_altitude) := by
  constructor
  · intro hga
    constructor <;> simp [Alt.update, hga]
  · intro hga
    have hmain : (Alt.update s (some 0) gps_v_acc none accel dt).1.fused_altitude
        = s.fused_altitude ∧
        (Alt.update s (some 0) gps_v_acc none accel dt).2 = s.fused_altitude := by
      simp only [Alt.update, hga]
      rcases accel with _ | az <;> rcases gps_v_acc with _ | va <;>
        split_ifs <;> simp_all <;> split_ifs <;> simp_all
    exact hmain

/-- Witness for the zero-altitude handling, before anchoring (initial state)
and after anchoring at 100 m. -/
theorem altitude_zero_gps_like_absent_witness :
    (Alt.init.gps_altitude = none ∧ altAnchored.gps_altitude = some 100) ∧
    Alt.update Alt.init (some 0) none none none 1 = (Alt.init, none) ∧
    Alt.update Alt.init (some 0) none none none 1
      = Alt.update Alt.init none none none none 1 ∧
    (Alt.update altAnchored (some 0) none none none 1).1.fused_altitude
      = altAnchored.fused_altitude ∧
    (Alt.update altAnchored (some 0) none none none 1).2
      = altAnchored.fused_altitude :=
  ⟨⟨rfl, rfl⟩,
   ((altitude_zero_gps_like_absent Alt.init none none none 1 0).1 rfl).1,
   ((altitude_zero_gps_like_absent Alt.init none none none 1 0).1 rfl).2,
   ((altitude_zero_gps_like_absent altAnchored none none none 1 100).2 rfl).1,
   ((altitude_zero_gps_like_absent altAnchored none none none 1 100).2 rfl).2⟩

/-- C9: the two coexisting update_gps implementations share the position
blend weight 1 / (1 + accuracy / 10) but diverge on velocity: for a usable
fix with valid course and speed, the app variant blends GPS velocity with
weight gps_weight * 0.5 and only when speed exceeds 0.5 m/s (velocity is left
unchanged for valid speeds at or below 0.5), while the viewer variant blends
with weight gps_weight * 0.8 whenever speed and course are nonnegative. -/
theorem velocity_blend_divergence (T : TrigOps) (s : App.State) (sv : Viewer.State)
    (lat lon speed course accuracy now : ℚ)
    (hinit : s.is_initialized = true)
    (hacc0 : 0 ≤ accuracy) (hacc30 : accuracy < 30) (hcourse : 0 ≤ course) :
    (speed > 0.5 →
      (App.update_gps T s lat lon speed course accuracy now).velocity_north
        = (1 - 1 / (1 + accuracy / 10) * 0.5) * s.velocity_north
          + 1 / (1 + accuracy / 10) * 0.5 * (speed * T.cos (radiansT T course)) ∧
      (App.update_gps T s lat lon speed course accuracy now).velocity_east
        = (1 - 1 / (1 + accuracy / 10) * 0.5) * s.velocity_east
          + 1 / (1 + accuracy / 10) * 0.5 * (speed * T.sin (radiansT T course))) ∧
    (0 ≤ speed → speed ≤ 0.5 →
      (App.update_gps T s lat lon speed course accuracy now).velocity_north
        = s.velocity_north ∧
      (App.update_gps T s lat lon speed course accuracy now).velocity_east
        = s.velocity_east) ∧
    (0 ≤ speed →
      (Viewer.update_gps T sv lat lon speed course accuracy now).velocity_north
        = (1 - 1 / (1 + accuracy / 10) * 0.8) * sv.velocity_north
          + 1 / (1 + accuracy / 10) * 0.8 * (speed * T.cos (radiansT T course)) ∧
      (Viewer.update_gps T sv lat lon speed course accuracy now).velocity_east
        = (1 - 1 / (1 + accuracy / 10) * 0.8) * sv.velocity_east
          + 1 / (1 + accuracy / 10) * 0.8 * (speed * T.sin (radiansT T course))) ∧
    (App.update_gps T s lat lon speed course accuracy now).current_lat
      = (1 - 1 / (1 + accuracy / 10)) * s.current_lat
        + 1 / (1 + accuracy / 10) * lat ∧
    (Viewer.update_gps T sv lat lon speed course accuracy now).current_lat
      = (1 - 1 / (1 + accuracy / 10)) * sv.current_lat
        + 1 / (1 + accuracy / 10) * lat := by
  have hini : ¬ (s.is_initialized = false) := by simp [hinit]
  have hp : ¬ (accuracy < 0 ∨ 30 ≤ accuracy) := by
    push_neg
    exact ⟨hacc0, hacc30⟩
  refine ⟨?_, ?_, ?_, ?_, ?_⟩
  · intro hsp
    have hvc : 0 ≤ course ∧ speed > 0.5 := ⟨hcourse, hsp⟩
    simp only [App.update_gps, if_neg hini, if_neg hp, if_pos hvc]
    split_ifs <;> constructor <;> simp
  · intro hsp0 hsp5
    have hnvc : ¬ (0 ≤ course ∧ speed > 0.5) := by
      rintro ⟨-, hgt⟩
      linarith
    simp only [App.update_gps, if_neg hini, if_neg hp, if_neg hnvc]
    split_ifs <;> constructor <;> simp
  · intro hsp0
    have hvc : 0 ≤ speed ∧ 0 ≤ course := ⟨hsp0, hcourse⟩
    simp only [Viewer.update_gps, if_neg hp, if_pos hvc]
    split_ifs <;> constructor <;> simp
  · simp only [App.update_gps, if_neg hini, if_neg hp]
    split_ifs <;> simp
  · simp only [Viewer.update_gps, if_neg hp]
    split_ifs <;> simp

/-- Witness for the velocity-blend divergence at accuracy 10 (so the position
weight is 1/2), course 0 and speed 1. -/
theorem velocity_blend_divergence_witness :
    ((App.init_pos App.reset 35 139).is_initialized = true ∧ (0 : ℚ) ≤ 10 ∧
      (10 : ℚ) < 30 ∧ (0 : ℚ) ≤ 0 ∧ (1 : ℚ) > 0.5) ∧
    ((App.update_gps TQ (App.init_pos App.reset 35 139) 36 140 1 0 10 9).velocity_north
      = (1 - 1 / (1 + 10 / 10) * 0.5) * (App.init_pos App.reset 35 139).velocity_north
        + 1 / (1 + 10 / 10) * 0.5 * (1 * TQ.cos (radiansT TQ 0)) ∧
     (App.update_gps TQ (App.init_pos App.reset 35 139) 36 140 1 0 10 9).velocity_east
      = (1 - 1 / (1 + 10 / 10) * 0.5) * (App.init_pos App.reset 35 139).velocity_east
        + 1 / (1 + 10 / 10) * 0.5 * (1 * TQ.sin (radiansT TQ 0))) ∧
    ((Viewer.update_gps TQ (Viewer.init 35 139) 36 140 1 0 10 9).velocity_north
      = (1 - 1 / (1 + 10 / 10) * 0.8) * (Viewer.init 35 139).velocity_north
        + 1 / (1 + 10 / 10) * 0.8 * (1 * TQ.cos (radiansT TQ 0)) ∧
     (Viewer.update_gps TQ (Viewer.init 35 139) 36 140 1 0 10 9).velocity_east
      = (1 - 1 / (1 + 10 / 10) * 0.8) * (Viewer.init 35 139).velocity_east
        + 1 / (1 + 10 / 10) * 0.8 * (1 * TQ.sin (radiansT TQ 0))) ∧
    (App.update_gps TQ (App.init_pos App.reset 35 139) 36 140 1 0 10 9).current_lat
      = (1 - 1 / (1 + 10 / 10)) * (App.init_pos App.reset 35 139).current_lat
        + 1 / (1 + 10 / 10) * 36 ∧
    (Viewer.update_gps TQ (Viewer.init 35 139) 36 140 1 0 10 9).current_lat
      = (1 - 1 / (1 + 10 / 10)) * (Viewer.init 35 139).current_lat
        + 1 / (1 + 10 / 10) * 36 := by
  have h := velocity_blend_divergence TQ (App.init_pos App.reset 35 139)
    (Viewer.init 35 139) 36 140 1 0 10 9 rfl (by norm_num) (by norm_num) (by norm_num)
  exact ⟨⟨rfl, by norm_num, by norm_num, by norm_num, by norm_num⟩,
    h.1 (by norm_num), h.2.2.1 (by norm_num), h.2.2.2.1, h.2.2.2.2⟩
